import Mathlib

/-!
Verification of the LINE × Ollama relay bot (`src/main.py`) against its
natural-language specification.

Python strings are modelled as `List Char` (`PyStr`), bytes as `List Nat`
(one entry per byte).  Effectful functions are modelled as pure functions
over explicit inputs; Python exceptions are modelled with `Except PyErr`.
All definitions are structurally recursive so that concrete inputs can be
evaluated by `decide` / `rfl`.
-/

set_option maxRecDepth 10000

/-- Python `str` modelled as a list of characters (code points). -/
abbrev PyStr := List Char

/-- Python exceptions that the program can raise, as relevant to the model. -/
inductive PyErr where
  | httpException (code : Nat)
  | attributeError
  | keyError
  | typeError
  | jsonDecodeError
  | transportError
deriving DecidableEq, Repr

/-- ASCII lower-casing, as Python `str.lower` acts on the ASCII range.
(The texts handled by the program are Thai and ASCII; Thai has no case.) -/
def lowerAscii (c : Char) : Char :=
  if 'A' ≤ c && c ≤ 'Z' then Char.ofNat (c.toNat + 32) else c

/-- ASCII upper-casing, as Python `str.upper` acts on the ASCII range. -/
def upperAscii (c : Char) : Char :=
  if 'a' ≤ c && c ≤ 'z' then Char.ofNat (c.toNat - 32) else c

/-- The characters matched by Python's regex `\s` / stripped by `str.strip()`
(ASCII range; the program's data contains no non-ASCII whitespace). -/
def isPySpace (c : Char) : Bool :=
  c == ' ' || c == '\t' || c == '\n' || c == '\r' || c == '\x0b' || c == '\x0c'

/-- `s.startswith(pat)`: does `s` begin with `pat`? -/
def pyStartswith : PyStr → PyStr → Bool
  | _, [] => true
  | [], _ :: _ => false
  | c :: cs, d :: ds => c == d && pyStartswith cs ds

/-- `s.endswith(pat)`. -/
def pyEndswith (s pat : PyStr) : Bool :=
  pyStartswith s.reverse pat.reverse

/-- `s.strip()` (whitespace on both ends). -/
def pyStripWs (s : PyStr) : PyStr :=
  ((s.dropWhile isPySpace).reverse.dropWhile isPySpace).reverse

/-- `s.rstrip(chars)` for a character set given as a list. -/
def pyRstripSet (s : PyStr) (set : PyStr) : PyStr :=
  (s.reverse.dropWhile (fun c => set.contains c)).reverse

/-! ### `_remove_reasoning` (src/main.py:244-247)

`re.sub(r"<think>.*?</think>", "", s, flags=DOTALL|IGNORECASE)`.
The scan is left to right; a non-greedy match ends at the first
case-insensitive `</think>` after a case-insensitive `<think>`; an opener
with no closer anywhere after it is left untouched (no closer can occur
after a later opener either, so the whole remainder is unchanged). -/

/-- Case-insensitive (ASCII) prefix test; the pattern is given lower-case. -/
def startswithCI : PyStr → PyStr → Bool
  | _, [] => true
  | [], _ :: _ => false
  | c :: cs, d :: ds => lowerAscii c == d && startswithCI cs ds

def openTag : PyStr := "<think>".data

def closeTag : PyStr := "</think>".data

/-- Does `</think>` (case-insensitive) occur anywhere in `l`? -/
def containsClose : PyStr → Bool
  | [] => false
  | c :: cs => startswithCI (c :: cs) closeTag || containsClose cs

/-- Scanner state for `_remove_reasoning`: normal copying, deleting inside a
`<think>` block, or unconditionally consuming `k` further characters before
switching to deletion (`true`) or to normal copying (`false`). -/
inductive RMode where
  | norm
  | think
  | skip (k : Nat) (thinkNext : Bool)

def rrGo : RMode → PyStr → PyStr
  | _, [] => []
  | .norm, c :: cs =>
      if startswithCI (c :: cs) openTag && containsClose (List.drop 7 (c :: cs)) then
        rrGo (.skip 5 true) cs
      else
        c :: rrGo .norm cs
  | .think, c :: cs =>
      if startswithCI (c :: cs) closeTag then rrGo (.skip 6 false) cs
      else rrGo .think cs
  | .skip 0 next, _ :: cs => rrGo (if next then .think else .norm) cs
  | .skip (k+1) next, _ :: cs => rrGo (.skip k next) cs

def remove_reasoning (s : PyStr) : PyStr := rrGo .norm s

/-! ### `_tidy_text` (src/main.py:249-257), one scanner per `re.sub`. -/

def isBlank (c : Char) : Bool := c == ' ' || c == '\t'

/-- `re.sub(r"[ \t]{2,}", " ", s)`.  Mode `true`: consuming the rest of a
run for which a single `' '` has already been emitted. -/
def cbGo : Bool → PyStr → PyStr
  | _, [] => []
  | true, c :: cs => if isBlank c then cbGo true cs else c :: cbGo false cs
  | false, c :: cs =>
      if isBlank c then
        match cs with
        | d :: _ => if isBlank d then ' ' :: cbGo true cs else c :: cbGo false cs
        | [] => [c]
      else c :: cbGo false cs

/-- `re.sub(r"\n{3,}", "\n\n", s)`.  Mode `true`: consuming the rest of a
newline run for which `"\n\n"` has already been emitted. -/
def cnGo : Bool → PyStr → PyStr
  | _, [] => []
  | true, c :: cs => if c == '\n' then cnGo true cs else c :: cnGo false cs
  | false, c :: cs =>
      if c == '\n' then
        match cs with
        | d :: e :: _ =>
            if d == '\n' && e == '\n' then '\n' :: '\n' :: cnGo true cs
            else c :: cnGo false cs
        | _ => c :: cnGo false cs
      else c :: cnGo false cs

/-- `re.sub(r"[，、]", ",", s)` then `re.sub(r"[。]", ".", s)`. -/
def mapFullwidth (c : Char) : Char :=
  if c == '，' || c == '、' then ','
  else if c == '。' then '.'
  else c

def isPunct (c : Char) : Bool := c == ',' || c == '.' || c == '!' || c == '?'

/-- `re.sub(r"([,\.!?])\1{1,}", r"\1", s)`: a run of two or more copies of
the same punctuation character collapses to one.  State `some r`: consuming
the rest of a run of `r` for which one `r` has been emitted. -/
def cpGo : Option Char → PyStr → PyStr
  | _, [] => []
  | m, c :: cs =>
      if (match m with | some r => c == r | none => false) then cpGo m cs
      else if isPunct c && (match cs with | d :: _ => d == c | [] => false) then
        c :: cpGo (some c) cs
      else c :: cpGo none cs

/-- `re.sub(r"\s+([,\.!?])", r"\1", s)`: whitespace directly before
punctuation is deleted.  `acc` holds the pending whitespace run (reversed). -/
def dwGo (acc : PyStr) : PyStr → PyStr
  | [] => acc.reverse
  | c :: cs =>
      if isPySpace c then dwGo (c :: acc) cs
      else if isPunct c then c :: dwGo [] cs
      else acc.reverse ++ c :: dwGo [] cs

/-- `re.sub(r"([,\.!?])([^\s])", r"\1 \2", s)`: one space is inserted after
punctuation followed by a non-space; the match consumes both characters, so
scanning resumes after the second one (exactly as `re.sub` does). -/
def sapGo : PyStr → PyStr
  | [] => []
  | [c] => [c]
  | c :: d :: cs =>
      if isPunct c && !isPySpace d then c :: ' ' :: d :: sapGo cs
      else c :: sapGo (d :: cs)

/-- `_tidy_text` (src/main.py:249-257). -/
def tidy_text (s : PyStr) : PyStr :=
  pyStripWs (sapGo (dwGo [] (cpGo none ((cnGo false (cbGo false s)).map mapFullwidth))))

/-! ### `_postprocess` (src/main.py:259-265) -/

/-- The enforced trailing suffix `"จร้าาาาา"`. -/
def SUFFIX : PyStr := "จร้าาาาา".data

/-- The character set of `reply.rstrip("!?. \n\r\t")`. -/
def rstripChars : PyStr := "!?. \n\r\t".data

/-- `_postprocess` (src/main.py:259-265).  A `None` reply is passed by the
caller as the empty string (`reply or ""`). -/
def _postprocess (reply : PyStr) : PyStr :=
  let r1 := pyStripWs reply
  let r2 := remove_reasoning r1
  let r3 := tidy_text r2
  if pyEndswith r3 SUFFIX then r3
  else pyRstripSet r3 rstripChars ++ ' ' :: SUFFIX

/-! ### SHA-256, HMAC-SHA256 and base64
(implementations of `hashlib.sha256`, `hmac.new(..., hashlib.sha256)` and
`base64.b64encode`, used by `verify_line_signature`, src/main.py:52-55).
Bytes are `Nat`s below 256; words are `Nat`s below 2^32 with explicit
`% 2^32` where overflow can occur. -/

def M32 : Nat := 4294967296

def rotr32 (x n : Nat) : Nat := ((x >>> n) ||| (x <<< (32 - n))) % M32

def bigSigma0 (x : Nat) : Nat := rotr32 x 2 ^^^ rotr32 x 13 ^^^ rotr32 x 22

def bigSigma1 (x : Nat) : Nat := rotr32 x 6 ^^^ rotr32 x 11 ^^^ rotr32 x 25

def smallSigma0 (x : Nat) : Nat := rotr32 x 7 ^^^ rotr32 x 18 ^^^ (x >>> 3)

def smallSigma1 (x : Nat) : Nat := rotr32 x 17 ^^^ rotr32 x 19 ^^^ (x >>> 10)

def chFn (x y z : Nat) : Nat := (x &&& y) ^^^ ((x ^^^ 0xffffffff) &&& z)

def majFn (x y z : Nat) : Nat := (x &&& y) ^^^ (x &&& z) ^^^ (y &&& z)

/-- The eight SHA-256 working variables. -/
structure Sha8 where
  a : Nat
  b : Nat
  c : Nat
  d : Nat
  e : Nat
  f : Nat
  g : Nat
  h : Nat

def shaInit : Sha8 :=
  ⟨1779033703, 3144134277, 1013904242, 2773480762,
   1359893119, 2600822924, 528734635, 1541459225⟩

def shaK : List Nat :=
  [1116352408, 1899447441, 3049323471, 3921009573,
   961987163, 1508970993, 2453635748, 2870763221,
   3624381080, 310598401, 607225278, 1426881987,
   1925078388, 2162078206, 2614888103, 3248222580,
   3835390401, 4022224774, 264347078, 604807628,
   770255983, 1249150122, 1555081692, 1996064986,
   2554220882, 2821834349, 2952996808, 3210313671,
   3336571891, 3584528711, 113926993, 338241895,
   666307205, 773529912, 1294757372, 1396182291,
   1695183700, 1986661051, 2177026350, 2456956037,
   2730485921, 2820302411, 3259730800, 3345764771,
   3516065817, 3600352804, 4094571909, 275423344,
   430227734, 506948616, 659060556, 883997877,
   958139571, 1322822218, 1537002063, 1747873779,
   1955562222, 2024104815, 2227730452, 2361852424,
   2428436474, 2756734187, 3204031479, 3329325298]

/-- Group a 64-byte block into 16 big-endian 32-bit words. -/
def wordsGo : List Nat → List Nat
  | b0 :: b1 :: b2 :: b3 :: rest =>
      (b0 * 16777216 + b1 * 65536 + b2 * 256 + b3) :: wordsGo rest
  | _ => []

/-- Extend the 16 message words to 64. -/
def extendW : Nat → List Nat → List Nat
  | 0, ws => ws
  | k + 1, ws =>
      let n := ws.length
      let next := (smallSigma1 (ws.getD (n - 2) 0) + ws.getD (n - 7) 0
        + smallSigma0 (ws.getD (n - 15) 0) + ws.getD (n - 16) 0) % M32
      extendW k (ws ++ [next])

def shaRound (s : Sha8) (kw : Nat × Nat) : Sha8 :=
  let t1 := (s.h + bigSigma1 s.e + chFn s.e s.f s.g + kw.1 + kw.2) % M32
  let t2 := (bigSigma0 s.a + majFn s.a s.b s.c) % M32
  ⟨(t1 + t2) % M32, s.a, s.b, s.c, (s.d + t1) % M32, s.e, s.f, s.g⟩

def shaCompress (s : Sha8) (block : List Nat) : Sha8 :=
  let ws := extendW 48 (wordsGo block)
  let t := (shaK.zip ws).foldl shaRound s
  ⟨(s.a + t.a) % M32, (s.b + t.b) % M32, (s.c + t.c) % M32, (s.d + t.d) % M32,
   (s.e + t.e) % M32, (s.f + t.f) % M32, (s.g + t.g) % M32, (s.h + t.h) % M32⟩

/-- Split a byte string (whose length is a multiple of 64) into 64-byte
blocks; `cur` accumulates the current block in reverse. -/
def blocksGo (cur : List Nat) : List Nat → List (List Nat)
  | [] => if cur.isEmpty then [] else [cur.reverse]
  | b :: bs =>
      if cur.length == 63 then (b :: cur).reverse :: blocksGo [] bs
      else blocksGo (b :: cur) bs

/-- `k` big-endian bytes of `n`. -/
def natToBytesBE : Nat → Nat → List Nat
  | 0, _ => []
  | k + 1, n => natToBytesBE k (n / 256) ++ [n % 256]

/-- SHA-256 padding: `0x80`, zeros, and the bit length as 8 big-endian
bytes, to a multiple of 64 bytes. -/
def shaPad (msg : List Nat) : List Nat :=
  msg ++ 0x80 :: List.replicate ((64 - ((msg.length + 9) % 64)) % 64) 0
    ++ natToBytesBE 8 (msg.length * 8)

def digestOf (s : Sha8) : List Nat :=
  natToBytesBE 4 s.a ++ natToBytesBE 4 s.b ++ natToBytesBE 4 s.c
    ++ natToBytesBE 4 s.d ++ natToBytesBE 4 s.e ++ natToBytesBE 4 s.f
    ++ natToBytesBE 4 s.g ++ natToBytesBE 4 s.h

def sha256 (msg : List Nat) : List Nat :=
  digestOf ((blocksGo [] (shaPad msg)).foldl shaCompress shaInit)

/-- HMAC-SHA256 (block size 64). -/
def hmacSha256 (key msg : List Nat) : List Nat :=
  let k0 := if 64 < key.length then sha256 key else key
  let kp := k0 ++ List.replicate (64 - k0.length) 0
  sha256 ((kp.map (fun b => b ^^^ 0x5c))
    ++ sha256 ((kp.map (fun b => b ^^^ 0x36)) ++ msg))

def b64chars : PyStr :=
  "ABCDEFGHIJKLMNOPQRSTUVWXYZabcdefghijklmnopqrstuvwxyz0123456789+/".data

def b64char (i : Nat) : Char := b64chars.getD i 'A'

/-- `base64.b64encode` on bytes (each below 256), as a string. -/
def b64encode : List Nat → PyStr
  | [] => []
  | [a] => [b64char (a / 4), b64char (a % 4 * 16), '=', '=']
  | [a, b] => [b64char (a / 4), b64char (a % 4 * 16 + b / 16),
               b64char (b % 16 * 4), '=']
  | a :: b :: c :: rest =>
      b64char (a / 4) :: b64char (a % 4 * 16 + b / 16)
        :: b64char (b % 16 * 4 + c / 64) :: b64char (c % 64) :: b64encode rest

/-- UTF-8 encoding of one character (`str.encode("utf-8")`). -/
def utf8Char (c : Char) : List Nat :=
  let n := c.toNat
  if n < 0x80 then [n]
  else if n < 0x800 then [0xc0 + n / 64, 0x80 + n % 64]
  else if n < 0x10000 then [0xe0 + n / 4096, 0x80 + n / 64 % 64, 0x80 + n % 64]
  else [0xf0 + n / 262144, 0x80 + n / 4096 % 64, 0x80 + n / 64 % 64, 0x80 + n % 64]

def utf8Encode (s : PyStr) : List Nat := (s.map utf8Char).flatten

/-! ### `verify_line_signature` (src/main.py:52-55) -/

def allAscii (s : PyStr) : Bool := s.all (fun c => c.toNat < 128)

/-- `hmac.compare_digest` on two `str` arguments.  CPython requires both
strings to be ASCII-only and raises `TypeError` otherwise; on ASCII inputs
the comparison is constant-time but extensionally plain equality. -/
def compare_digest (a b : PyStr) : Except PyErr Bool :=
  if allAscii a && allAscii b then .ok (a == b) else .error .typeError

/-- `verify_line_signature` (src/main.py:52-55).  `signature` is the value
of the `X-Line-Signature` header; `none` models a missing header, and
`signature or ""` maps it to the empty string before comparison. -/
def verify_line_signature (body : List Nat) (signature : Option PyStr)
    (secret : PyStr) : Except PyErr Bool :=
  let expected := b64encode (hmacSha256 (utf8Encode secret) body)
  compare_digest expected (signature.getD [])

/-! ### Inference Gateway with ordered fallback and sticky provider
(claim C1).  `src/main.py` contains only a single hard-coded provider
(`ask_ollama`, lines 268-308) with no provider list and no sticky cache;
the multi-provider Gateway those claims describe is the design of spec
section 4.4, so it is modelled from the spec here. -/

/-- Modelled from the spec: a `ProviderSpec` of section 3 — a named
provider whose `invoke(prompt)` returns `Result<text, ProviderError>`.
Missing from src/: the repository variant with multiple provider clients. -/
structure ProviderSpec where
  name : PyStr
  invoke : PyStr → Except PyStr PyStr

/-- Modelled from the spec: the outcome of `Gateway.ask` — a
`GatewayResult` (one text on success, the attempt-ordered
`(providerName, message)` list on failure), the sticky provider after the
call, and the attempt order of invoked provider names. -/
structure GatewayOutcome where
  result : Except (List (PyStr × PyStr)) PyStr
  sticky : Option PyStr
  trace : List PyStr

/-- Modelled from the spec (section 4.4, steps 4-5): invoke each remaining
provider in list order until one succeeds; the first success becomes the
new sticky provider; if every provider fails, return the collected errors
in attempt order with the sticky provider unchanged. -/
def askGatewayGo (prompt : PyStr) (stickyIn : Option PyStr) :
    List (PyStr × PyStr) → List PyStr → List ProviderSpec → GatewayOutcome
  | errs, trace, [] => ⟨.error errs, stickyIn, trace⟩
  | errs, trace, p :: rest =>
      match p.invoke prompt with
      | .ok t => ⟨.ok t, some p.name, trace ++ [p.name]⟩
      | .error e =>
          askGatewayGo prompt stickyIn (errs ++ [(p.name, e)])
            (trace ++ [p.name]) rest

/-- Modelled from the spec (section 4.4): `ask` invokes the sticky provider
first when set (keeping it sticky on success), and on its failure falls
back to the full ordered list, skipping the entry identical to the
already-tried sticky provider. -/
def askGateway (providers : List ProviderSpec) (sticky : Option PyStr)
    (prompt : PyStr) : GatewayOutcome :=
  match sticky with
  | none => askGatewayGo prompt none [] [] providers
  | some s =>
      match providers.find? (fun p => p.name == s) with
      | none => askGatewayGo prompt (some s) [] [] providers
      | some p =>
          match p.invoke prompt with
          | .ok t => ⟨.ok t, some s, [s]⟩
          | .error e =>
              askGatewayGo prompt (some s) [(s, e)] [s]
                (providers.filter (fun q => q.name != s))

/-- Provider `A`, which always fails (claim C1's scenario). -/
def provA : ProviderSpec := ⟨"A".data, fun _ => .error "A down".data⟩

/-- Provider `B`, failing variant. -/
def provB : ProviderSpec := ⟨"B".data, fun _ => .error "B down".data⟩

/-- Provider `B`, succeeding variant (the second call of the scenario). -/
def provBok : ProviderSpec := ⟨"B".data, fun _ => .ok "answer from B".data⟩

/-- Provider `C`, which succeeds. -/
def provC : ProviderSpec := ⟨"C".data, fun _ => .ok "answer from C".data⟩

/-- Provider `C`, failing variant (to exercise fallback away from the
sticky provider). -/
def provCfail : ProviderSpec := ⟨"C".data, fun _ => .error "C down".data⟩

/-! ### JSON values (`json.loads` output) -/

/-- JSON values as produced by `json.loads`.  Numbers are modelled as
integers (no claim involves fractional JSON numbers); object fields keep
insertion order, like Python dicts. -/
inductive JVal where
  | null
  | bool (b : Bool)
  | num (n : Int)
  | str (s : PyStr)
  | arr (l : List JVal)
  | obj (fs : List (PyStr × JVal))

/-- Python truthiness of a JSON value (`if not content`, `text or ""`). -/
def falsy : JVal → Bool
  | .null => true
  | .bool b => !b
  | .num n => n == 0
  | .str s => s.isEmpty
  | .arr l => l.isEmpty
  | .obj fs => fs.isEmpty

/-- Field lookup in a JSON object.  (`json.loads` keeps the last duplicate
key; the first match is returned here — the inputs considered have no
duplicate keys.) -/
def jfind : List (PyStr × JVal) → PyStr → Option JVal
  | [], _ => none
  | (k, v) :: rest, key => if k == key then some v else jfind rest key

/-- `d.get(key, default)`: the default is used only when the key is absent
(an explicit JSON `null` is returned as `null`, exactly as Python's `None`). -/
def jgetD (fs : List (PyStr × JVal)) (key : PyStr) (dflt : JVal) : JVal :=
  (jfind fs key).getD dflt

/-- `v == "lit"`: equality of a JSON value with a string literal. -/
def JVal.eqStr (v : JVal) (s : PyStr) : Bool :=
  match v with
  | .str t => t == s
  | _ => false

/-- Decimal representation of an integer (`str(n)`). -/
def intRepr (n : Int) : PyStr :=
  match n with
  | .ofNat m => Nat.toDigits 10 m
  | .negSucc m => '-' :: Nat.toDigits 10 (m + 1)

mutual

/-- Python `str()` of a JSON value (used for `str(data.get("response"))`,
src/main.py:304).  Containers use Python's `repr` of their elements;
string escaping beyond the surrounding quotes is not modelled (no claim
depends on this text). -/
def pyStrOf : JVal → PyStr
  | .null => "None".data
  | .bool true => "True".data
  | .bool false => "False".data
  | .num n => intRepr n
  | .str s => s
  | .arr l => '[' :: pyStrElems l ++ [']']
  | .obj fs => Char.ofNat 123 :: pyStrFields fs ++ [Char.ofNat 125]

/-- `repr` of one value inside a container (strings get quotes). -/
def pyStrItem : JVal → PyStr
  | .null => "None".data
  | .bool true => "True".data
  | .bool false => "False".data
  | .num n => intRepr n
  | .str s => Char.ofNat 39 :: s ++ [Char.ofNat 39]
  | .arr l => '[' :: pyStrElems l ++ [']']
  | .obj fs => Char.ofNat 123 :: pyStrFields fs ++ [Char.ofNat 125]

/-- Comma-separated `repr`s of list elements. -/
def pyStrElems : List JVal → PyStr
  | [] => []
  | [v] => pyStrItem v
  | v :: w :: rest => pyStrItem v ++ ", ".data ++ pyStrElems (w :: rest)

/-- Comma-separated `key: value` pairs of an object. -/
def pyStrFields : List (PyStr × JVal) → PyStr
  | [] => []
  | [(k, v)] => Char.ofNat 39 :: k ++ Char.ofNat 39 :: ": ".data ++ pyStrItem v
  | (k, v) :: f :: rest =>
      Char.ofNat 39 :: k ++ Char.ofNat 39 :: ": ".data ++ pyStrItem v
        ++ ", ".data ++ pyStrFields (f :: rest)

end

/-! ### `ask_ollama` (src/main.py:268-308) -/

/-- The fixed apology returned when the HTTP call to Ollama fails
(src/main.py:294). -/
def apologyHTTP : PyStr :=
  "ขออภัย ระบบ AI ตอบไม่ได้ชั่วคราว ลองอีกครั้งได้ไหมคะ".data

/-- The fallback text when no content can be extracted (src/main.py:306). -/
def apologyNoAnswer : PyStr := "ขออภัย ไม่พบคำตอบที่เหมาะสมค่ะ".data

/-- Outcome of the HTTP POST to Ollama (src/main.py:286-291): a
transport-level `httpx` failure, a non-2xx status (`raise_for_status`), a
2xx response whose body is not valid JSON (`r.json()` raises
`json.JSONDecodeError`), or a parsed JSON body. -/
inductive OllamaResponse where
  | transportErr
  | httpStatusErr
  | badJson
  | jsonBody (v : JVal)

/-- Content extraction from the parsed response object
(src/main.py:296-306): `data["message"]["content"]` if `message` is a
dict; else the last element of a non-empty `messages` list if that element
is a dict; else `str(data["response"])` if the key exists; else the fixed
fallback text. -/
def extractContent (fs : List (PyStr × JVal)) : JVal :=
  let c1 : JVal :=
    match jgetD fs "message".data .null with
    | .obj mfs => jgetD mfs "content".data .null
    | _ => .null
  let c2 : JVal :=
    if falsy c1 then
      match jgetD fs "messages".data .null with
      | .arr (x :: xs) =>
          match (x :: xs).getLast? with
          | some (.obj mfs) => jgetD mfs "content".data .null
          | _ => c1
      | _ => c1
    else c1
  let c3 : JVal :=
    if falsy c2 then
      match jfind fs "response".data with
      | some v => .str (pyStrOf v)
      | none => c2
    else c2
  if falsy c3 then .str apologyNoAnswer else c3

/-- `ask_ollama` (src/main.py:268-308) as a function of the provider's
response.  Only `httpx.HTTPError` is caught: transport errors and
`raise_for_status` map to the fixed apology; a 2xx body that is not JSON
raises `json.JSONDecodeError` to the caller; a JSON body that is not an
object raises `AttributeError` at `data.get(...)`; a truthy non-string
extracted content raises `AttributeError` inside `_postprocess`
(`content.strip()`). -/
def ask_ollama (resp : OllamaResponse) : Except PyErr PyStr :=
  match resp with
  | .transportErr => .ok (_postprocess apologyHTTP)
  | .httpStatusErr => .ok (_postprocess apologyHTTP)
  | .badJson => .error .jsonDecodeError
  | .jsonBody v =>
      match v with
      | .obj fs =>
          match extractContent fs with
          | .str s => .ok (_postprocess s)
          | _ => .error .attributeError
      | _ => .error .attributeError

/-! ### Sessions and personas (src/main.py:58-70, 239-241) -/

/-- A per-user session: `{"system_prompt": key}` (src/main.py:70, 336). -/
structure Session where
  system_prompt : PyStr
deriving DecidableEq

/-- `SYSTEM_PROMPTS` (src/main.py:58-69): `(key, name, prompt)` triples in
insertion order. -/
def SYSTEM_PROMPTS : List (PyStr × PyStr × PyStr) :=
  [("general".data, "🤖 ผู้ช่วยทั่วไป".data,
    "ตอบกระชับ ได้ใจความ และชัดเจน".data),
   ("teacher".data, "👨‍🏫 ครูสอนพิเศษ".data,
    "อธิบายให้เข้าใจง่าย ยกตัวอย่าง และถามย้ำความเข้าใจ".data),
   ("consultant".data, "💼 ที่ปรึกษาธุรกิจ".data,
    "วิเคราะห์เป็นระบบ เสนอมาตรการที่ทำได้จริง".data),
   ("programmer".data, "💻 โปรแกรมเมอร์".data,
    "อธิบายเทคนิคให้เข้าใจง่าย พร้อมตัวอย่างโค้ด/แนวปฏิบัติที่ดี".data),
   ("doctor".data, "👩‍⚕️ หมอให้คำปรึกษา".data,
    "ให้ความรู้สุขภาพเบื้องต้น พร้อมแนะนำพบแพทย์เมื่อต้องการวินิจฉัย".data),
   ("chef".data, "👨‍🍳 เชฟครัวไทย".data,
    "แนะนำเมนู วิธีทำ เคล็ดลับ และการจัดวัตถุดิบ".data),
   ("counselor".data, "🧠 นักจิตวิทยา".data,
    "รับฟังอย่างเข้าใจ ให้คำแนะนำอย่างอ่อนโยน".data),
   ("fitness".data, "💪 โค้ชฟิตเนส".data,
    "แนะนำการออกกำลังกายและโภชนาการ ให้กำลังใจ".data),
   ("travel".data, "✈️ ไกด์ท่องเที่ยว".data,
    "แนะนำสถานที่ วัฒนธรรม อาหาร และเคล็ดลับการเดินทาง".data),
   ("comedian".data, "😄 นักตลก".data,
    "ตอบสนุก มีอารมณ์ขัน แต่ยังให้ข้อมูลได้".data)]

/-- Lookup of a persona key, returning `(name, prompt)`. -/
def promptsFind : List (PyStr × PyStr × PyStr) → PyStr → Option (PyStr × PyStr)
  | [], _ => none
  | (k, name, prompt) :: rest, key =>
      if k == key then some (name, prompt) else promptsFind rest key

/-- `get_current_system_info` (src/main.py:239-241): the session's persona,
falling back to `general` for an unknown key. -/
def get_current_system_info (sess : Session) : PyStr × PyStr :=
  (promptsFind SYSTEM_PROMPTS sess.system_prompt).getD
    ("🤖 ผู้ช่วยทั่วไป".data, "ตอบกระชับ ได้ใจความ และชัดเจน".data)

/-- `MOTIVATIONAL_QUOTES` (src/main.py:73-79). -/
def MOTIVATIONAL_QUOTES : List PyStr :=
  ["💪 ความสำเร็จเริ่มจากการลงมือทำ".data,
   "🌟 วันนี้คือโอกาสใหม่ที่จะทำให้ดีขึ้น".data,
   "🚀 อย่ายอมแพ้ เพราะสิ่งดีๆ กำลังจะมา".data,
   "💎 คุณแข็งแกร่งกว่าที่คิด".data,
   "🌈 หลังฝนย่อมมีรุ้ง".data]

/-! ### Small parsing utilities used by the dispatcher -/

/-- `str.split()` with no argument: split on whitespace runs, dropping
empty pieces.  `cur` is the current word reversed, `acc` the finished
words reversed. -/
def pySplitGo (cur : PyStr) (acc : List PyStr) : PyStr → List PyStr
  | [] => (if cur.isEmpty then acc else cur.reverse :: acc).reverse
  | c :: cs =>
      if isPySpace c then
        if cur.isEmpty then pySplitGo [] acc cs
        else pySplitGo [] (cur.reverse :: acc) cs
      else pySplitGo (c :: cur) acc cs

def pySplit (s : PyStr) : List PyStr := pySplitGo [] [] s

/-- `str.isdigit()` (ASCII digits; Unicode digit characters are not
modelled — the program's inputs are ASCII here). -/
def pyIsdigit (s : PyStr) : Bool :=
  !s.isEmpty && s.all (fun c => '0' ≤ c && c ≤ '9')

/-- `int(s)` on a digit string. -/
def natParse (s : PyStr) : Nat :=
  s.foldl (fun a c => a * 10 + (c.toNat - 48)) 0

/-- Does `float(s)` succeed on the part after the optional sign?  Grammar:
`digits [. digits] | . digits`, then an optional exponent with its own
optional sign.  (Underscore separators and `inf`/`nan` spellings other
than the ones below are not modelled; no claim depends on them.) -/
def floatTail (l : PyStr) : Bool :=
  let isDigit := fun c : Char => '0' ≤ c && c ≤ '9'
  let d1 := l.takeWhile isDigit
  let r1 := l.dropWhile isDigit
  let d2r2 : PyStr × PyStr :=
    match r1 with
    | '.' :: rest => (rest.takeWhile isDigit, rest.dropWhile isDigit)
    | _ => ([], r1)
  if d1.length + d2r2.1.length == 0 then false
  else
    match d2r2.2 with
    | [] => true
    | e :: rest =>
        (e == 'e' || e == 'E') &&
          (let rest2 : PyStr :=
            match rest with
            | c :: r => if c == '+' || c == '-' then r else rest
            | [] => rest
          !rest2.isEmpty && rest2.all isDigit)

/-- Does `float(s)` succeed (src tool branches wrap it in `try`)? -/
def floatParseOk (s : PyStr) : Bool :=
  let t := pyStripWs s
  let t2 : PyStr :=
    match t with
    | c :: r => if c == '+' || c == '-' then r else t
    | [] => t
  let tl := t2.map lowerAscii
  if tl == "inf".data || tl == "infinity".data || tl == "nan".data then true
  else floatTail t2

/-- The pattern `"เลือก"` of the persona-selection command. -/
def selectTag : PyStr := "เลือก".data

/-- `user_text.replace("เลือก", "")` (src/main.py:360): every occurrence
is removed, scanning left to right.  In state `k + 1`, `k + 1` more
characters of a matched occurrence remain to be deleted. -/
def rsGo : Nat → PyStr → PyStr
  | _, [] => []
  | 0, c :: cs =>
      if pyStartswith (c :: cs) selectTag then rsGo (selectTag.length - 1) cs
      else c :: rsGo 0 cs
  | k + 1, _ :: cs => rsGo k cs

def replaceSelect (s : PyStr) : PyStr := rsGo 0 s

/-! ### Pure tool texts implemented in full (src/main.py:145-158) -/

def hexDigitChar (n : Nat) : Char := "0123456789ABCDEF".data.getD n '0'

/-- A byte left unescaped by `urllib.parse.quote` (letters, digits,
`_.-~` and the default safe character `/`). -/
def quoteSafeByte (b : Nat) : Bool :=
  (48 ≤ b && b ≤ 57) || (65 ≤ b && b ≤ 90) || (97 ≤ b && b ≤ 122)
    || b == 95 || b == 46 || b == 45 || b == 126 || b == 47

/-- `urllib.parse.quote` over the UTF-8 encoding. -/
def pyQuote (s : PyStr) : PyStr :=
  ((utf8Encode s).map (fun b =>
    if quoteSafeByte b then [Char.ofNat b]
    else ['%', hexDigitChar (b / 16), hexDigitChar (b % 16)])).flatten

/-- `get_qr_text` (src/main.py:145-149). -/
def get_qr_text (text : PyStr) : PyStr :=
  "📱 QR Code ของคุณ:\n".data
    ++ "https://api.qrserver.com/v1/create-qr-code/?size=300x300&data=".data
    ++ pyQuote text
    ++ "\n\nข้อความ: ".data ++ text

def isHexDigitB (c : Char) : Bool :=
  ('0' ≤ c && c ≤ '9') || ('A' ≤ c && c ≤ 'F') || ('a' ≤ c && c ≤ 'f')

/-- `color_code_info_text` (src/main.py:151-158): strip, prepend `#` if
missing, and require exactly six hex digits (`re.fullmatch`). -/
def color_code_info_text (code : PyStr) : PyStr :=
  let c := pyStripWs code
  if c.isEmpty then "❌ กรุณาใส่โค้ดสี เช่น #FF5733 หรือ FF5733".data
  else
    let c2 := if pyStartswith c "#".data then c else '#' :: c
    let hexpart := c2.drop 1
    if hexpart.length == 6 && hexpart.all isHexDigitB then
      "🎨 ข้อมูลสี\nโค้ด: ".data ++ c2.map upperAscii
        ++ "\nดูตัวอย่าง: https://www.color-hex.com/color/".data
        ++ hexpart.map lowerAscii
    else "❌ รูปแบบโค้ดสีไม่ถูกต้อง\nตัวอย่าง: #FF5733 หรือ FF5733".data

/-! ### The fixed reply texts of the dispatcher (f-strings expanded) -/

/-- Reply of the `ai`/`แชท`/`chat` branch (src/main.py:345). -/
def aiModeText (name : PyStr) : PyStr :=
  "🤖 กลับสู่โหมด AI แล้ว!\nบุคลิกปัจจุบัน: ".data ++ name
    ++ "\n\nพิมพ์ \x27เมนู\x27 เพื่อเปลี่ยนบุคลิก หรือถามคำถามได้เลย".data

/-- The persona menu text (src/main.py:219). -/
def menuText : PyStr := "🎭 เลือกบุคลิกที่ต้องการ".data

/-- The tools menu text (src/main.py:224). -/
def toolsText : PyStr := "🛠️ เครื่องมือที่มีให้ใช้ (แตะปุ่ม):".data

/-- Confirmation after a persona switch (src/main.py:364). -/
def selectConfirmText (name : PyStr) : PyStr :=
  "✅ เปลี่ยนบุคลิกเป็น ".data ++ name
    ++ " เรียบร้อยแล้ว!\nลองถามได้เลย หรือพิมพ์ \x27เมนู\x27 เพื่อเปลี่ยนอีกครั้ง".data

/-- Unknown-persona reply (src/main.py:366). -/
def unknownPersonaText : PyStr :=
  "❌ ไม่มีบุคลิกนี้นะ ลองพิมพ์ \x27เมนู\x27 เพื่อดูรายการ".data

/-- The `help`/status reply (src/main.py:371-380). -/
def statusText (name : PyStr) : PyStr :=
  "🤖 สถานะปัจจุบัน\nบุคลิก: ".data ++ name
    ++ "\n\n📋 คำสั่ง:\n• \x27เมนู\x27 – เปลี่ยนบุคลิก\n• \x27เครื่องมือ\x27 – ฟังก์ชันเสริม\n• \x27AI\x27 – กลับโหมดแชท\n\n🛠️ เครื่องมือ:\n• อัตราแลกเปลี่ยน, เวลา, กำลังใจ\n• BMI, แปลงหน่วย, QR, สี, สินเชื่อ, รหัสผ่าน".data

def bmiFormatErr : PyStr := "❌ รูปแบบไม่ถูกต้อง | ตัวอย่าง: BMI 70 175".data

def bmiUsage : PyStr :=
  "📊 วิธีใช้ BMI: พิมพ์ \x27BMI [น้ำหนักกก.] [ส่วนสูงซม.]\x27".data

def convFormatErr : PyStr := "❌ รูปแบบไม่ถูกต้อง".data

def convUsage : PyStr :=
  "🔄 แปลง [ตัวเลข] [หน่วยเดิม] [หน่วยใหม่]\nเช่น: แปลง 100 cm m".data

def qrUsage : PyStr := "📱 พิมพ์: QR ข้อความ".data

def loanFormatErr : PyStr := "❌ รูปแบบไม่ถูกต้อง".data

def loanUsage : PyStr :=
  "💰 สินเชื่อ [เงินกู้] [ดอกเบี้ย%] [ปี]\nเช่น: สินเชื่อ 1000000 5 30".data

/-- The greeting for `follow`/`join` events (src/main.py:460). -/
def greetingText : PyStr :=
  "สวัสดีค่า พิมพ์ \x27เมนู\x27 เพื่อเลือกบุคลิก หรือพิมพ์ \x27เครื่องมือ\x27 เพื่อดูฟังก์ชันเสริม".data

/-! ### The dispatcher (src/main.py:311-462) -/

/-- The nondeterministic / external inputs of one event's processing: the
outcome of the outbound reply POST (`sendOk = false`: a transport-level
`httpx` exception escapes `reply_text`), the Ollama response, and the
texts of the tools whose output depends on the network, the clock, or
`random` (each reply is still post-processed by the dispatcher). -/
structure Oracle where
  sendOk : Bool
  ask : OllamaResponse
  exchangeText : PyStr
  timeText : PyStr
  quoteIdx : Nat
  passwordText : Nat → PyStr
  bmiText : PyStr
  convText : PyStr
  loanText : PyStr

/-- Result of classifying one text message (src/main.py:342-457): either a
direct reply (text already post-processed, with the possibly-updated
session), or fall-through to the model call with the current persona
prompt. -/
inductive MsgOut where
  | direct (text : PyStr) (sess : Session)
  | toAI (userText : PyStr) (personaPrompt : PyStr) (sess : Session)

/-- The text-classification chain of `line_callback`
(src/main.py:342-457), first match wins.  `user_text` is the stripped
message text; `lower` its ASCII lower-casing.  Every matching branch
replies with `reply_text(_postprocess(X))` in the source; this function
returns that `X` together with the (possibly updated) session, and `none`
when the text falls through to the model call. -/
def classifyText (sess : Session) (orc : Oracle) (user_text : PyStr) :
    Option (PyStr × Session) :=
  let lower := user_text.map lowerAscii
  if lower == "ai".data || lower == "แชท".data || lower == "chat".data then
    some (aiModeText (get_current_system_info sess).1, sess)
  else if lower == "เมนู".data || lower == "menu".data
      || lower == "เลือก".data || lower == "เปลี่ยน".data then
    some (menuText, sess)
  else if lower == "เครื่องมือ".data || lower == "tools".data
      || lower == "ฟังก์ชัน".data || lower == "functions".data
      || lower == "tool".data || lower == "utils".data then
    some (toolsText, sess)
  else if pyStartswith user_text selectTag then
    let key := pyStripWs (replaceSelect user_text)
    match promptsFind SYSTEM_PROMPTS key with
    | some np => some (selectConfirmText np.1, ⟨key⟩)
    | none => some (unknownPersonaText, sess)
  else if lower == "help".data || lower == "ช่วย".data
      || lower == "สถานะ".data || lower == "status".data then
    some (statusText (get_current_system_info sess).1, sess)
  else if lower == "อัตราแลกเปลี่ยน".data then
    some (orc.exchangeText, sess)
  else if lower == "เวลา".data then
    some (orc.timeText, sess)
  else if lower == "กำลังใจ".data || lower == "motivate".data then
    some (MOTIVATIONAL_QUOTES.getD (orc.quoteIdx % 5) [], sess)
  else if pyStartswith lower "รหัสผ่าน".data then
    let parts := pySplit user_text
    let len := if 1 < parts.length && pyIsdigit (parts.getD 1 [])
      then natParse (parts.getD 1 []) else 12
    some (orc.passwordText len, sess)
  else if pyStartswith lower "bmi".data then
    let parts := pySplit user_text
    if parts.length == 3 then
      if floatParseOk (parts.getD 1 []) && floatParseOk (parts.getD 2 []) then
        some (orc.bmiText, sess)
      else some (bmiFormatErr, sess)
    else some (bmiUsage, sess)
  else if pyStartswith lower "แปลง".data then
    let parts := pySplit user_text
    if 4 ≤ parts.length then
      if floatParseOk (parts.getD 1 []) then
        some (orc.convText, sess)
      else some (convFormatErr, sess)
    else some (convUsage, sess)
  else if pyStartswith lower "qr ".data then
    let text := pyStripWs (user_text.drop 3)
    if text.isEmpty then some (qrUsage, sess)
    else some (get_qr_text text, sess)
  else if pyStartswith lower "สี ".data || pyStartswith user_text "#".data then
    let code := if pyStartswith user_text "สี ".data
      then pyStripWs (user_text.drop 2) else pyStripWs user_text
    some (color_code_info_text code, sess)
  else if pyStartswith lower "สินเชื่อ".data then
    let parts := pySplit user_text
    if parts.length == 4 then
      if floatParseOk (parts.getD 1 []) && floatParseOk (parts.getD 2 [])
          && floatParseOk (parts.getD 3 []) then
        some (orc.loanText, sess)
      else some (loanFormatErr, sess)
    else some (loanUsage, sess)
  else
    none

/-- Classification plus the uniform `_postprocess` wrapping each direct
reply gets at its `reply_text` call site. -/
def dispatchText (sess : Session) (orc : Oracle) (user_text : PyStr) : MsgOut :=
  match classifyText sess orc user_text with
  | some ts => .direct (_postprocess ts.1) ts.2
  | none => .toAI user_text (get_current_system_info sess).2 sess

/-! ### The session store and the event loop -/

/-- Is the JSON value usable as a Python dict key?  Lists and dicts are
unhashable: a `userId` of such a value raises `TypeError` at the
`user_id not in user_sessions` test (src/main.py:335). -/
def hashableKey : JVal → Bool
  | .arr _ => false
  | .obj _ => false
  | _ => true

/-- Equality of hashable JSON dict keys.  (CPython also unifies numeric
and boolean keys, `True == 1`; that corner is not modelled — the
program's user ids are strings.) -/
def keyEq : JVal → JVal → Bool
  | .null, .null => true
  | .bool a, .bool b => a == b
  | .num a, .num b => a == b
  | .str a, .str b => a == b
  | _, _ => false

/-- The module-level `user_sessions` dict (src/main.py:70). -/
abbrev Store := List (JVal × Session)

def storeFind : Store → JVal → Option Session
  | [], _ => none
  | (k, s) :: rest, key => if keyEq k key then some s else storeFind rest key

def storeSet : Store → JVal → Session → Store
  | [], key, s => [(key, s)]
  | (k, s0) :: rest, key, s =>
      if keyEq k key then (k, s) :: rest else (k, s0) :: storeSet rest key s

/-- `jgetD source "userId" "anonymous"` (src/main.py:333). -/
def eventUserId (sfs : List (PyStr × JVal)) : JVal :=
  jgetD sfs "userId".data (.str "anonymous".data)

/-- Session creation on first contact (src/main.py:335-336). -/
def ensureSession (store : Store) (userId : JVal) : Store :=
  if (storeFind store userId).isSome then store
  else storeSet store userId ⟨"general".data⟩

/-- The session the dispatcher reads for a user (always present after
`ensureSession`; `general` otherwise). -/
def sessionOf (store : Store) (userId : JVal) : Session :=
  (storeFind store userId).getD ⟨"general".data⟩

/-- Sending the classified reply (src/main.py:346-457): a direct reply is
sent as is; the fall-through case calls `ask_ollama` and sends its text.
`sendOk = false` models a transport exception escaping `reply_text`.  The
returned list holds the reply texts that were sent. -/
def sendDispatch (orc : Oracle) (store1 : Store) (userId : JVal) :
    MsgOut → Except PyErr (Store × List PyStr)
  | .direct t sess2 =>
      if orc.sendOk then .ok (storeSet store1 userId sess2, [t])
      else .error .transportError
  | .toAI _ _ sess2 =>
      match ask_ollama orc.ask with
      | .error e => .error e
      | .ok t =>
          if orc.sendOk then .ok (storeSet store1 userId sess2, [t])
          else .error .transportError

/-- The text-message case (src/main.py:338-457):
`user_text = (event["message"]["text"] or "").strip()` — a falsy `text`
becomes `""`, a truthy non-string raises `AttributeError` at `.strip()`. -/
def handleText (orc : Oracle) (store1 : Store) (userId : JVal) (tv : JVal) :
    Except PyErr (Store × List PyStr) :=
  match (if falsy tv then some ([] : PyStr)
    else match tv with
      | .str s => some s
      | _ => none) with
  | none => .error .attributeError
  | some raw =>
      sendDispatch orc store1 userId
        (dispatchText (sessionOf store1 userId) orc (pyStripWs raw))

/-- Dispatch on the event type (src/main.py:338, 459-460), after the
session has been created.  A `message` event whose `message` field is not
an object raises at `.get("type")`; a missing `text` key raises
`KeyError`; `follow`/`join` get the greeting; other types do nothing. -/
def handleTyped (orc : Oracle) (store1 : Store) (userId : JVal)
    (fs : List (PyStr × JVal)) : Except PyErr (Store × List PyStr) :=
  if JVal.eqStr (jgetD fs "type".data .null) "message".data then
    match jgetD fs "message".data (.obj []) with
    | .obj mfs =>
        if JVal.eqStr (jgetD mfs "type".data .null) "text".data then
          match jfind mfs "text".data with
          | none => .error .keyError
          | some tv => handleText orc store1 userId tv
        else .ok (store1, [])
    | _ => .error .attributeError
  else if JVal.eqStr (jgetD fs "type".data .null) "follow".data
      || JVal.eqStr (jgetD fs "type".data .null) "join".data then
    if orc.sendOk then .ok (store1, [_postprocess greetingText])
    else .error .transportError
  else .ok (store1, [])

/-- One iteration of the event loop (src/main.py:329-460): read the event
fields (`.get` on a non-dict raises `AttributeError`), reject unhashable
user ids (`TypeError` at the dict membership test), create the session if
absent, and dispatch on the event type. -/
def handleEvent (orc : Oracle) (store : Store) (ev : JVal) :
    Except PyErr (Store × List PyStr) :=
  match ev with
  | .obj fs =>
      match jgetD fs "source".data (.obj []) with
      | .obj sfs =>
          if hashableKey (eventUserId sfs) then
            handleTyped orc (ensureSession store (eventUserId sfs))
              (eventUserId sfs) fs
          else .error .typeError
      | _ => .error .attributeError
  | _ => .error .attributeError

/-- The loop over the event batch, in order; the `i`-th event's external
outcomes are `orcF i`.  An exception in any event aborts the whole
handler (there is no per-event `try` in the source). -/
def runEvents (orcF : Nat → Oracle) : Nat → Store → List JVal →
    Except PyErr (Store × List PyStr)
  | _, store, [] => .ok (store, [])
  | i, store, ev :: rest =>
      match handleEvent (orcF i) store ev with
      | .error e => .error e
      | .ok out =>
          match runEvents orcF (i + 1) out.1 rest with
          | .error e => .error e
          | .ok out2 => .ok (out2.1, out.2 ++ out2.2)

/-- The webhook handler `line_callback` (src/main.py:311-462) as a
function of: whether the LINE secrets are configured, whether the
signature header is present, whether it verifies (the raw-body HMAC check
of `verify_line_signature`), the parsed JSON body (`none` models a JSON
parse failure), the per-event external outcomes, and the session store.
`.ok` models returning `{"ok": True}`; `.error (.httpException c)` the
explicit `HTTPException(c)` rejections; any other `.error` an uncaught
exception escaping the handler (an HTTP 500, not a success).  Iterating a
non-list `events` value: a string iterates its characters and a dict its
keys (each a `str`, so `event.get` raises `AttributeError` at the first
element; empty ones yield no iterations); `null`, numbers and booleans
are not iterable (`TypeError`). -/
def line_callback (cfgOk hasSig sigOk : Bool) (parsed : Option JVal)
    (orcF : Nat → Oracle) (store : Store) : Except PyErr (Store × List PyStr) :=
  if !cfgOk then .error (.httpException 500)
  else if !hasSig || !sigOk then .error (.httpException 401)
  else
    match parsed with
    | none => .error (.httpException 400)
    | some (.obj fs) =>
        match jgetD fs "events".data (.arr []) with
        | .arr evs => runEvents orcF 0 store evs
        | .str s => if s.isEmpty then .ok (store, []) else .error .attributeError
        | .obj ofs => if ofs.isEmpty then .ok (store, []) else .error .attributeError
        | _ => .error .typeError
    | some _ => .error .attributeError

/-- A `text` field whose processing cannot raise: falsy (becomes `""`) or
a string. -/
def wellFormedText (tv : JVal) : Bool :=
  falsy tv || (match tv with | .str _ => true | _ => false)

/-- The per-type part of event well-formedness, mirroring `handleTyped`:
a `message` event must carry an object `message` whose `text`, when the
message type is `text`, exists and is well formed. -/
def wellFormedTyped (fs : List (PyStr × JVal)) : Bool :=
  if JVal.eqStr (jgetD fs "type".data .null) "message".data then
    match jgetD fs "message".data (.obj []) with
    | .obj mfs =>
        if JVal.eqStr (jgetD mfs "type".data .null) "text".data then
          match jfind mfs "text".data with
          | none => false
          | some tv => wellFormedText tv
        else true
    | _ => false
  else true

/-- An event is well formed when its processing cannot raise: it is an
object, its `source` (when present) is an object, its `userId` is
hashable, and its typed part is well formed. -/
def wellFormedEvent (ev : JVal) : Bool :=
  match ev with
  | .obj fs =>
      match jgetD fs "source".data (.obj []) with
      | .obj sfs => hashableKey (eventUserId sfs) && wellFormedTyped fs
      | _ => false
  | _ => false

/-- Proof helper: every reply text carried by a `MsgOut` ends with the
suffix (`toAI` carries none itself). -/
def MsgOut.endsOk : MsgOut → Bool
  | .direct t _ => pyEndswith t SUFFIX
  | .toAI _ _ _ => true

/-- Proof helper: a successful handler result only carries reply texts
ending with the suffix. -/
def RepliesEnd : Except PyErr (Store × List PyStr) → Prop
  | .ok out => ∀ r ∈ out.2, pyEndswith r SUFFIX = true
  | .error _ => True

/-- A fully benign oracle for concrete evaluations: sends succeed and the
model call fails at the HTTP level (mapped to the fixed apology). -/
def defaultOracle : Oracle :=
  ⟨true, .transportErr, [], [], 0, fun _ => [], [], [], []⟩

/-- A concrete well-formed `follow` event. -/
def wEvent : JVal :=
  .obj [("type".data, .str "follow".data), ("replyToken".data, .str "r".data)]

/-- A concrete parsed body holding the single event `wEvent`. -/
def wParsed : Option JVal := some (.obj [("events".data, .arr [wEvent])])

/-- The matching signature for secret `"k"` and empty body. -/
def goodSigK : PyStr := b64encode (hmacSha256 (utf8Encode "k".data) [])

/-- `goodSigK` with the top bit (value 128) of its first character set: a
single-bit mutation of a matching signature, and no longer ASCII. -/
def mutatedSigK : PyStr :=
  match goodSigK with
  | c :: r => Char.ofNat (c.toNat + 128) :: r
  | [] => []

/-! ########################################################################
## Part II: theorems
######################################################################## -/

/-! Sanity checks of the scanners against the behaviour of the Python
originals (each of these was also executed with CPython `re`). -/

example : _postprocess [] = ' ' :: SUFFIX := by decide
example : _postprocess (_postprocess []) = SUFFIX := by decide
example : _postprocess "a".data = 'a' :: ' ' :: SUFFIX := by decide
example : tidy_text ".,".data = ". ,".data := by decide
example : tidy_text "!?x".data = "! ?x".data := by decide
example : tidy_text " . .".data = ". .".data := by decide
example : tidy_text "a..b".data = "a. b".data := by decide
example : tidy_text "a \n .".data = "a.".data := by decide
example : _postprocess "<think>x</think>hi".data = "hi จร้าาาาา".data := by decide
example : _postprocess "<think>x".data = "<think>x จร้าาาาา".data := by decide
example :
    _postprocess "<think<think>x</think>>y</think>".data
      = "<think>y</think> จร้าาาาา".data := by decide

/-! ### Generic lemmas about the post-processor -/

theorem pyStartswith_append_self (p rest : PyStr) :
    pyStartswith (p ++ rest) p = true := by
  induction p with
  | nil => simp [pyStartswith]
  | cons c cs ih => simp [pyStartswith, ih]

theorem pyEndswith_append_suffix (x : PyStr) :
    pyEndswith (x ++ ' ' :: SUFFIX) SUFFIX = true := by
  unfold pyEndswith
  have h : (x ++ ' ' :: SUFFIX).reverse
      = SUFFIX.reverse ++ (' ' :: x.reverse) := by
    simp
  rw [h]
  exact pyStartswith_append_self SUFFIX.reverse (' ' :: x.reverse)

/-- Every output of `_postprocess` ends with the suffix. -/
theorem postprocess_ends_with_suffix (s : PyStr) :
    pyEndswith (_postprocess s) SUFFIX = true := by
  simp only [_postprocess]
  split
  · assumption
  · exact pyEndswith_append_suffix _

/-- A string ending with the (non-empty) suffix is non-empty. -/
theorem ne_nil_of_ends_with_suffix (s : PyStr)
    (h : pyEndswith s SUFFIX = true) : s ≠ [] := by
  intro hnil
  subst hnil
  exact absurd h (by decide)

/-- Every output of `_postprocess` is non-empty. -/
theorem postprocess_ne_nil (s : PyStr) : _postprocess s ≠ [] :=
  ne_nil_of_ends_with_suffix _ (postprocess_ends_with_suffix s)

/-! ### The post-processor on a plain run of `'a'`:
every pass leaves `replicate n 'a'` unchanged, and the suffix is appended.
Used to show that no length cap is enforced (claim C3). -/

theorem dropWhile_replicate_a (p : Char → Bool) (h : p 'a' = false) (n : Nat) :
    List.dropWhile p (List.replicate n 'a') = List.replicate n 'a' := by
  cases n with
  | zero => rfl
  | succ m => simp [List.replicate, List.dropWhile, h]

theorem pyStripWs_replicate_a (n : Nat) :
    pyStripWs (List.replicate n 'a') = List.replicate n 'a' := by
  unfold pyStripWs
  rw [dropWhile_replicate_a _ (by decide), List.reverse_replicate,
    dropWhile_replicate_a _ (by decide), List.reverse_replicate]

theorem rrGo_replicate_a (n : Nat) :
    rrGo .norm (List.replicate n 'a') = List.replicate n 'a' := by
  induction n with
  | zero => rfl
  | succ m ih => simpa [List.replicate, rrGo, startswithCI, openTag, lowerAscii] using ih

theorem remove_reasoning_replicate_a (n : Nat) :
    remove_reasoning (List.replicate n 'a') = List.replicate n 'a' := by
  unfold remove_reasoning
  exact rrGo_replicate_a n

theorem cbGo_replicate_a (n : Nat) :
    cbGo false (List.replicate n 'a') = List.replicate n 'a' := by
  induction n with
  | zero => rfl
  | succ m ih => simpa [List.replicate, cbGo, isBlank] using ih

theorem cnGo_replicate_a (n : Nat) :
    cnGo false (List.replicate n 'a') = List.replicate n 'a' := by
  induction n with
  | zero => rfl
  | succ m ih => simpa [List.replicate, cnGo] using ih

theorem cpGo_replicate_a (n : Nat) :
    cpGo none (List.replicate n 'a') = List.replicate n 'a' := by
  induction n with
  | zero => rfl
  | succ m ih => simpa [List.replicate, cpGo, isPunct] using ih

theorem dwGo_replicate_a (n : Nat) :
    dwGo [] (List.replicate n 'a') = List.replicate n 'a' := by
  induction n with
  | zero => rfl
  | succ m ih => simpa [List.replicate, dwGo, isPySpace, isPunct] using ih

theorem sapGo_replicate_a : ∀ n, sapGo (List.replicate n 'a') = List.replicate n 'a'
  | 0 => rfl
  | 1 => rfl
  | n + 2 => by
      have ih := sapGo_replicate_a (n + 1)
      simpa [List.replicate, sapGo, isPunct] using ih

theorem tidy_replicate_a (n : Nat) :
    tidy_text (List.replicate n 'a') = List.replicate n 'a' := by
  unfold tidy_text
  rw [cbGo_replicate_a, cnGo_replicate_a, List.map_replicate]
  have hm : mapFullwidth 'a' = 'a' := by decide
  rw [hm, cpGo_replicate_a, dwGo_replicate_a, sapGo_replicate_a,
    pyStripWs_replicate_a]

theorem not_endswith_suffix_replicate_a (n : Nat) :
    pyEndswith (List.replicate n 'a') SUFFIX = false := by
  unfold pyEndswith
  rw [List.reverse_replicate]
  have h : SUFFIX.reverse = 'า' :: "าาาา้รจ".data := by decide
  rw [h]
  cases n with
  | zero => rfl
  | succ m => simp [List.replicate, pyStartswith]

theorem pyRstripSet_replicate_a (n : Nat) :
    pyRstripSet (List.replicate n 'a') rstripChars = List.replicate n 'a' := by
  unfold pyRstripSet
  rw [List.reverse_replicate, dropWhile_replicate_a _ (by decide),
    List.reverse_replicate]

/-- `_postprocess` on a run of `n` copies of `'a'` just appends the suffix. -/
theorem postprocess_replicate_a (n : Nat) :
    _postprocess (List.replicate n 'a') = List.replicate n 'a' ++ ' ' :: SUFFIX := by
  have h1 : tidy_text (remove_reasoning (pyStripWs (List.replicate n 'a')))
      = List.replicate n 'a' := by
    rw [pyStripWs_replicate_a, remove_reasoning_replicate_a, tidy_replicate_a]
  simp only [_postprocess, h1, not_endswith_suffix_replicate_a,
    Bool.false_eq_true, if_false, pyRstripSet_replicate_a]

/-! ### Claims about the post-processor -/

/-- C2: the claim states that `_postprocess` is idempotent for every input.
The code violates this: on the empty string the first application produces
`" จร้าาาาา"` (the suffix is appended to the emptied string after
`rstrip`, leaving a leading space), while the second application strips
that leading space, so applying the function twice differs from applying
it once.  This theorem evaluates the code at the failing input. -/
theorem claim_C2_idempotence_fails_at_empty :
    _postprocess [] = ' ' :: SUFFIX
  ∧ _postprocess (_postprocess []) = SUFFIX
  ∧ _postprocess (_postprocess []) ≠ _postprocess [] := by
  refine ⟨by decide, by decide, by decide⟩

/-- C3 counterexample: the claim states a length bound
`len(process(s)) ≤ maxChars + len(requiredSuffix) + 2` with truncation to
`maxChars - 1` plus an ellipsis.  The code applies no truncation at all
(the app title even says "No Char Limit"); with the only length constant
mentioned in the source (the LINE transport cap of 5000 characters,
src/main.py:179) as `maxChars`, an input of 6000 characters yields an
output of 6009 characters, exceeding the claimed bound, and no ellipsis
character is ever appended. -/
theorem claim_C3_counterexample :
    5000 + SUFFIX.length + 2 < (_postprocess (List.replicate 6000 'a')).length
  ∧ '…' ∉ _postprocess (List.replicate 6000 'a') := by
  rw [postprocess_replicate_a]
  constructor
  · rw [List.length_append, List.length_replicate,
      show (' ' :: SUFFIX).length = 9 from by decide,
      show SUFFIX.length = 8 from by decide]
    omega
  · simp only [List.mem_append, List.mem_cons, List.mem_replicate]
    decide

/-- C3 (amended): the post-processor enforces no length cap and never
truncates: for an input consisting of `n` copies of `'a'` (which every
tidying pass leaves unchanged), the output is the input plus the 9
appended characters `" จร้าาาาา"`, so the output length is `n + 9` and
grows without bound. -/
theorem claim_C3_no_length_cap (n : Nat) :
    (_postprocess (List.replicate n 'a')).length = n + 9 := by
  rw [postprocess_replicate_a, List.length_append, List.length_replicate,
    show (' ' :: SUFFIX).length = 9 from by decide]

/-- C7: for every input string the post-processed output ends with the
required suffix `"จร้าาาาา"` (it is kept if already present, appended
otherwise), and since the suffix is non-empty the output is non-empty. -/
theorem claim_C7_suffix_and_nonempty (s : PyStr) :
    pyEndswith (_postprocess s) SUFFIX = true ∧ _postprocess s ≠ [] :=
  ⟨postprocess_ends_with_suffix s, postprocess_ne_nil s⟩

/-! ### Signature verification (claim C5) -/

theorem natToBytesBE_length (k : Nat) : ∀ n, (natToBytesBE k n).length = k := by
  induction k with
  | zero => intro n; rfl
  | succ m ih => intro n; simp [natToBytesBE, ih]

theorem digestOf_length (s : Sha8) : (digestOf s).length = 32 := by
  simp [digestOf, natToBytesBE_length]

theorem sha256_ne_nil (m : List Nat) : sha256 m ≠ [] := by
  intro h
  have := digestOf_length ((blocksGo [] (shaPad m)).foldl shaCompress shaInit)
  rw [show digestOf ((blocksGo [] (shaPad m)).foldl shaCompress shaInit)
      = sha256 m from rfl, h] at this
  exact absurd this (by decide)

theorem getD_ascii_of_all (l : PyStr) (d : Char)
    (hl : l.all (fun c => c.toNat < 128) = true) (hd : d.toNat < 128) :
    ∀ i : Nat, (l.getD i d).toNat < 128 := by
  induction l with
  | nil => intro i; simpa [List.getD] using hd
  | cons c cs ih =>
      simp only [List.all_cons, Bool.and_eq_true, decide_eq_true_eq] at hl
      intro i
      cases i with
      | zero => simpa [List.getD] using hl.1
      | succ j => simpa [List.getD_cons_succ] using ih (by simpa using hl.2) j

theorem b64char_ascii (i : Nat) : (b64char i).toNat < 128 :=
  getD_ascii_of_all b64chars 'A' (by decide) (by decide) i

theorem b64_allAscii : ∀ l : List Nat, allAscii (b64encode l) = true
  | [] => rfl
  | [a] => by simp [b64encode, allAscii, b64char_ascii]
  | [a, b] => by simp [b64encode, allAscii, b64char_ascii]
  | a :: b :: c :: rest => by
      have ih := b64_allAscii rest
      simp only [allAscii, List.all_eq_true] at ih ⊢
      intro x hx
      simp only [b64encode, List.mem_cons] at hx
      rcases hx with rfl | rfl | rfl | rfl | hx
      · simpa using b64char_ascii _
      · simpa using b64char_ascii _
      · simpa using b64char_ascii _
      · simpa using b64char_ascii _
      · exact ih x hx

theorem b64_ne_nil : ∀ l : List Nat, l ≠ [] → b64encode l ≠ []
  | [], h => absurd rfl h
  | [a], _ => by simp [b64encode]
  | [a, b], _ => by simp [b64encode]
  | a :: b :: c :: rest, _ => by simp [b64encode]

/-- C5 (amended): for every body, secret, and ASCII (or missing) signature,
`verify_line_signature` returns true exactly when the signature equals the
base64-encoded HMAC-SHA256 of the body keyed by the secret, and returns
false — without raising — when the signature is empty or the header is
missing.  (The original claim is refuted for non-ASCII single-bit
mutations, which raise `TypeError`; and the clause "false for any body
differing in one bit" is exactly 1-bit collision resistance of HMAC-SHA256,
which is neither provable nor refutable; it holds whenever the mutated
body's MAC differs, which the iff gives.) -/
theorem claim_C5_verify_iff (body : List Nat) (secret : PyStr)
    (sig : Option PyStr) (hA : allAscii (sig.getD []) = true) :
    (verify_line_signature body sig secret = .ok true ↔
      sig.getD [] = b64encode (hmacSha256 (utf8Encode secret) body))
  ∧ (sig.getD [] = [] → verify_line_signature body sig secret = .ok false) := by
  have hexp : allAscii (b64encode (hmacSha256 (utf8Encode secret) body)) = true :=
    b64_allAscii _
  have key : verify_line_signature body sig secret
      = .ok (b64encode (hmacSha256 (utf8Encode secret) body) == sig.getD []) := by
    simp only [verify_line_signature, compare_digest, hexp, hA, Bool.and_self,
      if_true]
  constructor
  · rw [key]
    constructor
    · intro h
      have h2 : (b64encode (hmacSha256 (utf8Encode secret) body) == sig.getD [])
          = true := by
        simpa using h
      exact (eq_of_beq h2).symm
    · intro h
      rw [h]
      simp
  · intro hnil
    rw [key, hnil]
    have hne : b64encode (hmacSha256 (utf8Encode secret) body) ≠ [] :=
      b64_ne_nil _ (sha256_ne_nil _)
    have h2 : (b64encode (hmacSha256 (utf8Encode secret) body) == ([] : PyStr))
        = false := by
      simpa using hne
    rw [h2]

/-- C5 witness: the amended theorem at body `b""`, secret `"k"` and an
empty signature string. -/
theorem claim_C5_verify_iff_witness :
    verify_line_signature [] (some []) "k".data = Except.ok false :=
  (claim_C5_verify_iff [] "k".data (some []) (by decide)).2 rfl

/-- C5 counterexample: the claim states that `verify` returns false for any
signature differing in a single bit from a matching pair.  Take secret
`"k"`, empty body, and the matching signature; flip the top bit of its
first character (a single-bit change, making the character non-ASCII):
`hmac.compare_digest` then raises `TypeError` instead of returning false,
so `verify_line_signature` throws. -/
theorem claim_C5_counterexample :
    verify_line_signature [] (some goodSigK) "k".data = Except.ok true
  ∧ (mutatedSigK.headD ' ').toNat = (goodSigK.headD ' ').toNat ^^^ 128
  ∧ mutatedSigK.length = goodSigK.length
  ∧ verify_line_signature [] (some mutatedSigK) "k".data
      = Except.error PyErr.typeError := by
  refine ⟨by rfl, by rfl, by rfl, by rfl⟩

/-! ### Gateway fallback ordering (claim C1) -/

/-- C1: (spec-modelled Gateway, section 4.4) with providers
`[A (fails), B (fails), C (succeeds)]` and no prior sticky provider, `ask`
tries A, B, C in list order, returns C's text and sets the sticky provider
to C; on a subsequent call with sticky = C, C is invoked first (here it
succeeds immediately, so the trace is `[C]` and C stays sticky); and when
the sticky provider fails, the remaining providers are invoked in list
order, the first success (B) returning its text and becoming the new
sticky provider. -/
theorem claim_C1_gateway_fallback :
    askGateway [provA, provB, provC] none "q".data
      = ⟨.ok "answer from C".data, some "C".data,
         ["A".data, "B".data, "C".data]⟩
  ∧ askGateway [provA, provBok, provC] (some "C".data) "q".data
      = ⟨.ok "answer from C".data, some "C".data, ["C".data]⟩
  ∧ askGateway [provA, provBok, provCfail] (some "C".data) "q".data
      = ⟨.ok "answer from B".data, some "B".data,
         ["C".data, "A".data, "B".data]⟩ := by
  refine ⟨by rfl, by rfl, by rfl⟩

/-! ### The Gateway's failure handling (claim C4) -/

/-- Every successful result of `ask_ollama` is a post-processed string. -/
theorem ask_ollama_ok_ends (resp : OllamaResponse) (t : PyStr)
    (h : ask_ollama resp = .ok t) : pyEndswith t SUFFIX = true := by
  unfold ask_ollama at h
  split at h
  · cases h; exact postprocess_ends_with_suffix _
  · cases h; exact postprocess_ends_with_suffix _
  · cases h
  · split at h
    · split at h
      · cases h; exact postprocess_ends_with_suffix _
      · cases h
    · cases h

/-- C4: the claim states that the Gateway's `ask` never raises and maps
every provider failure, including malformed responses, to one fixed
apology string.  The code violates this: `r.json()` sits inside a `try`
that only catches `httpx.HTTPError`, so an HTTP 200 response whose body is
not valid JSON raises `json.JSONDecodeError` to the caller.  HTTP-level
failures (transport error, bad status) do map to the one fixed apology,
independent of the provider.  This theorem evaluates the code at the
failing input and at the handled inputs. -/
theorem claim_C4_ask_raises_on_bad_json :
    ask_ollama .badJson = Except.error PyErr.jsonDecodeError
  ∧ ask_ollama .transportErr = Except.ok (_postprocess apologyHTTP)
  ∧ ask_ollama .httpStatusErr = Except.ok (_postprocess apologyHTTP) := by
  refine ⟨rfl, rfl, rfl⟩

/-! ### The dispatcher: generic lemmas -/

theorem list_beq_cons (a b : Char) (as bs : PyStr) :
    ((a :: as) == (b :: bs)) = (a == b && as == bs) := rfl

theorem pyStartswith_cons (a b : Char) (as bs : PyStr) :
    pyStartswith (a :: as) (b :: bs) = (a == b && pyStartswith as bs) := rfl

theorem pyStartswith_nil (s : PyStr) : pyStartswith s [] = true := by
  cases s <;> rfl

theorem dispatch_endsOk (sess : Session) (orc : Oracle) (t : PyStr) :
    (dispatchText sess orc t).endsOk = true := by
  unfold dispatchText
  cases classifyText sess orc t with
  | none => rfl
  | some ts => simp [MsgOut.endsOk, postprocess_ends_with_suffix]

theorem dispatch_direct_ends (sess : Session) (orc : Oracle) (t : PyStr)
    (txt : PyStr) (sess2 : Session)
    (h : dispatchText sess orc t = .direct txt sess2) :
    pyEndswith txt SUFFIX = true := by
  have h2 := dispatch_endsOk sess orc t
  rw [h] at h2
  simpa [MsgOut.endsOk] using h2

theorem mem_singleton_end (t r : PyStr) (h : r ∈ [t])
    (he : pyEndswith t SUFFIX = true) : pyEndswith r SUFFIX = true := by
  rw [List.mem_singleton.mp h]
  exact he

theorem sendDispatch_replies_end (orc : Oracle) (store1 : Store)
    (userId : JVal) (m : MsgOut) (hm : m.endsOk = true) :
    RepliesEnd (sendDispatch orc store1 userId m) := by
  cases m with
  | direct t sess2 =>
      simp only [MsgOut.endsOk] at hm
      simp only [sendDispatch]
      split
      · intro r hr
        exact mem_singleton_end _ _ hr hm
      · exact trivial
  | toAI a b sess2 =>
      simp only [sendDispatch]
      split
      · exact trivial
      · rename_i t heq
        split
        · intro r hr
          exact mem_singleton_end _ _ hr (ask_ollama_ok_ends _ _ heq)
        · exact trivial

theorem handleText_replies_end (orc : Oracle) (store1 : Store)
    (userId : JVal) (tv : JVal) :
    RepliesEnd (handleText orc store1 userId tv) := by
  unfold handleText
  split
  · exact trivial
  · exact sendDispatch_replies_end _ _ _ _ (dispatch_endsOk _ _ _)

theorem handleTyped_replies_end (orc : Oracle) (store1 : Store)
    (userId : JVal) (fs : List (PyStr × JVal)) :
    RepliesEnd (handleTyped orc store1 userId fs) := by
  unfold handleTyped
  repeat' split
  all_goals first
    | exact trivial
    | exact handleText_replies_end _ _ _ _
    | (intro r hr; exact absurd hr (List.not_mem_nil r))
    | (intro r hr; exact mem_singleton_end _ _ hr (postprocess_ends_with_suffix _))

theorem handleEvent_replies_end (orc : Oracle) (store : Store) (ev : JVal) :
    RepliesEnd (handleEvent orc store ev) := by
  unfold handleEvent
  repeat' split
  all_goals first
    | exact trivial
    | exact handleTyped_replies_end _ _ _ _

theorem runEvents_replies_end (orcF : Nat → Oracle) :
    ∀ (evs : List JVal) (i : Nat) (store : Store),
      RepliesEnd (runEvents orcF i store evs)
  | [], _, _ => by intro r hr; exact absurd hr (List.not_mem_nil r)
  | ev :: rest, i, store => by
      unfold runEvents
      split
      · exact trivial
      · rename_i out heq
        split
        · exact trivial
        · rename_i out2 heq2
          intro r hr
          rcases List.mem_append.mp hr with h1 | h2
          · have h3 := handleEvent_replies_end (orcF i) store ev
            rw [heq] at h3
            exact h3 r h1
          · have h3 := runEvents_replies_end orcF rest (i + 1) out.1
            rw [heq2] at h3
            exact h3 r h2

theorem line_callback_replies_end (cfgOk hasSig sigOk : Bool)
    (parsed : Option JVal) (orcF : Nat → Oracle) (store : Store) :
    RepliesEnd (line_callback cfgOk hasSig sigOk parsed orcF store) := by
  unfold line_callback
  repeat' split
  all_goals first
    | exact trivial
    | exact runEvents_replies_end _ _ _ _
    | (intro r hr; exact absurd hr (List.not_mem_nil r))

/-! ### Dispatcher classification of persona commands (claim C6) -/

/-- C6: for every session state, the text `"เลือกteacher"` (selecting the
known persona key `teacher`) yields the confirmation reply and mutates the
session's persona to `teacher`; `"เลือกbogus"` (unknown key) yields the
unknown-persona reply and leaves the session unchanged; `"เมนู"` yields
the persona menu and leaves the session unchanged, whatever the current
persona.  All three results are `.direct` replies, so none of them calls
the Gateway (`.toAI` is the only Gateway path). -/
theorem claim_C6_persona_commands (sess : Session) (orc : Oracle) :
    dispatchText sess orc "เลือกteacher".data
      = .direct (_postprocess (selectConfirmText "👨‍🏫 ครูสอนพิเศษ".data))
          ⟨"teacher".data⟩
  ∧ dispatchText sess orc "เลือกbogus".data
      = .direct (_postprocess unknownPersonaText) sess
  ∧ dispatchText sess orc "เมนู".data
      = .direct (_postprocess menuText) sess :=
  ⟨rfl, rfl, rfl⟩

/-! ### Every reply is post-processed (claim C9) -/

/-- C9: every reply text in a successful webhook result — menu texts, tool
results, greetings, status messages and model answers alike — has been
passed through `_postprocess`, and therefore ends with the fixed suffix
`"จร้าาาาา"`. -/
theorem claim_C9_all_replies_end_with_suffix (cfgOk hasSig sigOk : Bool)
    (parsed : Option JVal) (orcF : Nat → Oracle) (store st : Store)
    (rs : List PyStr) (r : PyStr)
    (h : line_callback cfgOk hasSig sigOk parsed orcF store = .ok (st, rs))
    (hr : r ∈ rs) : pyEndswith r SUFFIX = true := by
  have h2 := line_callback_replies_end cfgOk hasSig sigOk parsed orcF store
  rw [h] at h2
  exact h2 r hr

/-- C9 witness: the theorem applied to a concrete delivery with one
`follow` event, whose greeting reply indeed ends with the suffix. -/
theorem claim_C9_witness : pyEndswith (_postprocess greetingText) SUFFIX = true :=
  claim_C9_all_replies_end_with_suffix true true true wParsed
    (fun _ => defaultOracle) []
    [(.str "anonymous".data, ⟨"general".data⟩)] [_postprocess greetingText]
    (_postprocess greetingText) rfl (by simp)

/-! ### Texts starting with `#` are handled as color lookups (claim C10) -/

theorem stripWs_hash (v : PyStr) : ∃ w, pyStripWs ('#' :: v) = '#' :: w := by
  unfold pyStripWs
  rw [show List.dropWhile isPySpace ('#' :: v) = '#' :: v from by
    simp [List.dropWhile_cons, isPySpace]]
  rw [List.reverse_cons, List.dropWhile_append]
  split
  · exact ⟨[], by simp [List.dropWhile_cons, isPySpace]⟩
  · exact ⟨(List.dropWhile isPySpace v.reverse).reverse, by simp⟩

theorem dispatch_hash (sess : Session) (orc : Oracle) (v : PyStr) :
    dispatchText sess orc ('#' :: v)
      = .direct (_postprocess (color_code_info_text (pyStripWs ('#' :: v)))) sess := by
  have hcl : classifyText sess orc ('#' :: v)
      = some (color_code_info_text (pyStripWs ('#' :: v)), sess) := by
    simp only [classifyText, List.map_cons,
      show lowerAscii '#' = '#' from by decide,
      list_beq_cons, pyStartswith_cons, pyStartswith_nil, selectTag,
      show ("ai".data : PyStr) = 'a' :: "i".data from rfl,
      show ("แชท".data : PyStr) = 'แ' :: "ชท".data from rfl,
      show ("chat".data : PyStr) = 'c' :: "hat".data from rfl,
      show ("เมนู".data : PyStr) = 'เ' :: "มนู".data from rfl,
      show ("menu".data : PyStr) = 'm' :: "enu".data from rfl,
      show ("เลือก".data : PyStr) = 'เ' :: "ลือก".data from rfl,
      show ("เปลี่ยน".data : PyStr) = 'เ' :: "ปลี่ยน".data from rfl,
      show ("เครื่องมือ".data : PyStr) = 'เ' :: "ครื่องมือ".data from rfl,
      show ("tools".data : PyStr) = 't' :: "ools".data from rfl,
      show ("ฟังก์ชัน".data : PyStr) = 'ฟ' :: "ังก์ชัน".data from rfl,
      show ("functions".data : PyStr) = 'f' :: "unctions".data from rfl,
      show ("tool".data : PyStr) = 't' :: "ool".data from rfl,
      show ("utils".data : PyStr) = 'u' :: "tils".data from rfl,
      show ("help".data : PyStr) = 'h' :: "elp".data from rfl,
      show ("ช่วย".data : PyStr) = 'ช' :: "่วย".data from rfl,
      show ("สถานะ".data : PyStr) = 'ส' :: "ถานะ".data from rfl,
      show ("status".data : PyStr) = 's' :: "tatus".data from rfl,
      show ("อัตราแลกเปลี่ยน".data : PyStr) = 'อ' :: "ัตราแลกเปลี่ยน".data from rfl,
      show ("เวลา".data : PyStr) = 'เ' :: "วลา".data from rfl,
      show ("กำลังใจ".data : PyStr) = 'ก' :: "ำลังใจ".data from rfl,
      show ("motivate".data : PyStr) = 'm' :: "otivate".data from rfl,
      show ("รหัสผ่าน".data : PyStr) = 'ร' :: "หัสผ่าน".data from rfl,
      show ("bmi".data : PyStr) = 'b' :: "mi".data from rfl,
      show ("แปลง".data : PyStr) = 'แ' :: "ปลง".data from rfl,
      show ("qr ".data : PyStr) = 'q' :: "r ".data from rfl,
      show ("สี ".data : PyStr) = 'ส' :: "ี ".data from rfl,
      show ("สินเชื่อ".data : PyStr) = 'ส' :: "ินเชื่อ".data from rfl,
      show ("#".data : PyStr) = '#' :: [] from rfl]
    simp
  unfold dispatchText
  rw [hcl]

/-- C10: a text message whose text begins with `'#'` is handled by the
color-code branch — the reply is `color_code_info_text` of the stripped
text (color information for a valid 6-hex-digit code, a format-error hint
otherwise), the session is unchanged, and the Gateway is never called
(the result is `.direct`, not `.toAI`), even though the text does not
start with the documented `"สี "` tool prefix. -/
theorem claim_C10_hash_color (sess : Session) (orc : Oracle) (t : PyStr)
    (h : pyStartswith t "#".data = true) :
    dispatchText sess orc (pyStripWs t)
      = .direct (_postprocess (color_code_info_text (pyStripWs (pyStripWs t)))) sess := by
  obtain ⟨v, rfl⟩ : ∃ v, t = '#' :: v := by
    cases t with
    | nil => exact absurd h (by decide)
    | cons c cs =>
        rw [show ("#".data : PyStr) = '#' :: [] from rfl, pyStartswith_cons,
          pyStartswith_nil, Bool.and_true] at h
        exact ⟨cs, by rw [show c = '#' from eq_of_beq h]⟩
  obtain ⟨w, hw⟩ := stripWs_hash v
  rw [hw, dispatch_hash]

/-- C10 witness: the theorem applied to the concrete text `"#FF5733"`. -/
theorem claim_C10_witness :
    dispatchText ⟨"general".data⟩ defaultOracle (pyStripWs "#FF5733".data)
      = .direct
          (_postprocess (color_code_info_text (pyStripWs (pyStripWs "#FF5733".data))))
          ⟨"general".data⟩ :=
  claim_C10_hash_color ⟨"general".data⟩ defaultOracle "#FF5733".data (by decide)

/-! ### Success acknowledgment of well-formed deliveries (claim C8) -/

theorem sendDispatch_ok (orc : Oracle) (store1 : Store) (userId : JVal)
    (m : MsgOut) (hsend : orc.sendOk = true)
    (hask : (ask_ollama orc.ask).isOk = true) :
    (sendDispatch orc store1 userId m).isOk = true := by
  cases m with
  | direct t sess2 => simp [sendDispatch, hsend, Except.isOk, Except.toBool]
  | toAI a b sess2 =>
      simp only [sendDispatch]
      split
      · rename_i e heq
        rw [heq] at hask
        exact absurd hask (by simp [Except.isOk, Except.toBool])
      · simp [hsend, Except.isOk, Except.toBool]

theorem handleText_ok (orc : Oracle) (store1 : Store) (userId : JVal)
    (tv : JVal) (htv : wellFormedText tv = true)
    (hsend : orc.sendOk = true) (hask : (ask_ollama orc.ask).isOk = true) :
    (handleText orc store1 userId tv).isOk = true := by
  unfold handleText
  unfold wellFormedText at htv
  split
  · rename_i heq
    cases hf : falsy tv with
    | true => rw [hf] at heq; simp at heq
    | false =>
        rw [hf] at heq
        rw [hf] at htv
        simp only [Bool.false_or] at htv
        cases tv <;> simp_all
  · exact sendDispatch_ok _ _ _ _ hsend hask

theorem handleTyped_ok (orc : Oracle) (store1 : Store) (userId : JVal)
    (fs : List (PyStr × JVal)) (hwf : wellFormedTyped fs = true)
    (hsend : orc.sendOk = true) (hask : (ask_ollama orc.ask).isOk = true) :
    (handleTyped orc store1 userId fs).isOk = true := by
  unfold handleTyped
  unfold wellFormedTyped at hwf
  repeat' split
  all_goals simp_all [Except.isOk, Except.toBool]
  all_goals exact handleText_ok _ _ _ _ (by assumption) hsend hask

theorem handleEvent_ok (orc : Oracle) (store : Store) (ev : JVal)
    (hwf : wellFormedEvent ev = true)
    (hsend : orc.sendOk = true) (hask : (ask_ollama orc.ask).isOk = true) :
    (handleEvent orc store ev).isOk = true := by
  unfold handleEvent
  unfold wellFormedEvent at hwf
  repeat' split
  all_goals simp_all [Except.isOk, Except.toBool]
  all_goals exact handleTyped_ok _ _ _ _ (by assumption) hsend hask

theorem runEvents_ok (orcF : Nat → Oracle)
    (hor : ∀ i, (orcF i).sendOk = true ∧ (ask_ollama (orcF i).ask).isOk = true) :
    ∀ (evs : List JVal) (i : Nat) (store : Store),
      (∀ ev ∈ evs, wellFormedEvent ev = true) →
      (runEvents orcF i store evs).isOk = true
  | [], _, _, _ => rfl
  | ev :: rest, i, store, hwf => by
      unfold runEvents
      split
      · rename_i e heq
        have h2 := handleEvent_ok (orcF i) store ev (hwf ev (by simp))
          (hor i).1 (hor i).2
        rw [heq] at h2
        exact absurd h2 (by simp [Except.isOk, Except.toBool])
      · rename_i out heq
        split
        · rename_i e2 heq2
          have h2 := runEvents_ok orcF hor rest (i + 1) out.1
            (fun e he => hwf e (by simp [he]))
          rw [heq2] at h2
          exact absurd h2 (by simp [Except.isOk, Except.toBool])
        · rfl

/-- C8 (amended): for every inbound delivery whose signature verifies and
whose body parses as a JSON object, with `events` (when present) a list of
well-formed events, and whose per-event external outcomes do not raise
(outbound sends succeed and the model call does not raise), the webhook
handler acknowledges success (`{"ok": True}`), regardless of which
dispatcher branches ran; tool-argument failures are converted to textual
replies inside the dispatcher and never abort the delivery. -/
theorem claim_C8_success_ack (orcF : Nat → Oracle) (store : Store)
    (fs : List (PyStr × JVal)) (evs : List JVal)
    (hev : jgetD fs "events".data (.arr []) = .arr evs)
    (hwf : ∀ ev ∈ evs, wellFormedEvent ev = true)
    (hor : ∀ i, (orcF i).sendOk = true ∧ (ask_ollama (orcF i).ask).isOk = true) :
    (line_callback true true true (some (.obj fs)) orcF store).isOk = true := by
  unfold line_callback
  simp only [Bool.not_true, Bool.false_or]
  rw [if_neg (by simp), if_neg (by simp), hev]
  exact runEvents_ok orcF hor evs 0 store hwf

/-- C8 counterexample: the claim as stated requires a success
acknowledgment whenever the signature verifies and the body parses as
JSON.  A body that is a JSON array (`"[]"`) parses as JSON, yet
`payload.get("events", [])` raises `AttributeError` (lists have no
`.get`), so the handler raises instead of acknowledging success. -/
theorem claim_C8_counterexample :
    line_callback true true true (some (JVal.arr [])) (fun _ => defaultOracle) []
      = Except.error PyErr.attributeError := rfl

/-- C8 witness: the amended theorem at a concrete delivery with one
well-formed `follow` event and benign outcomes. -/
theorem claim_C8_witness :
    (line_callback true true true
      (some (.obj [("events".data, JVal.arr [wEvent])]))
      (fun _ => defaultOracle) []).isOk = true :=
  claim_C8_success_ack (fun _ => defaultOracle) []
    [("events".data, JVal.arr [wEvent])] [wEvent] rfl
    (fun ev he => by rw [List.mem_singleton.mp he]; rfl)
    (fun _ => ⟨rfl, rfl⟩)
